import Mathlib

/-!
Verification of the book-catalog controller of `xb-api`
(`src/app/controllers/bookController` and collaborators).

The controller handlers are shallowly embedded as pure functions.  Each
handler takes the external collaborators (store adapter, JSON
serialization) as an `Env`, the request, and the current cache state; it
returns the handler result, the final cache state, and the trace of
collaborator calls it performed, in order.  The `await` points against the
shared cache are genuine interleaving points of the async runtime; the one
interleaving that matters to the control flow of `getBooks` (between the
`redis.del` and the `redis.get` on the same key) is exposed as an explicit
`interfere` function on the cache state.  Sequential single-request
executions take `interfere = id`.
-/

set_option autoImplicit false

namespace XbApi

/-- A request body as `express.json` delivers it: the parsed JSON value.
An object payload parses to a JS object; a JSON string or number parses to
the corresponding primitive.  Object fields are kept as string pairs, which
is enough to distinguish contents. -/
inductive Body where
  | str : String → Body
  | num : Int → Body
  | obj : List (String × String) → Body
deriving DecidableEq, Repr

/-- JS default stringification, as invoked by the template literal
`books_${body}`: a string interpolates as itself, a number via its decimal
representation, and a plain object (the result of parsing a JSON object)
as the constant "[object Object]". -/
def Body.jsToString : Body → String
  | .str s => s
  | .num n => toString n
  | .obj _ => "[object Object]"

/-- The cache key of `getBooks` and `postBooks`: the template literal
`books_${body}` (line 29 and line 239 of the controller). -/
def booksKey (b : Body) : String := "books_" ++ b.jsToString

/-- The cache (redis) state: an association list from keys to stored
string values.  TTL bookkeeping is not part of the state; expirations show
up in the event trace. -/
abbrev Cache := List (String × String)

/-- redis GET: the value stored under `k`, if any. -/
def cacheGet (st : Cache) (k : String) : Option String :=
  (st.find? (fun p => p.1 == k)).map (fun p => p.2)

/-- redis DEL: remove the entry under `k`. -/
def cacheDel (st : Cache) (k : String) : Cache :=
  st.filter (fun p => p.1 != k)

/-- redis SET: store `v` under `k`, replacing any previous entry. -/
def cacheSet (st : Cache) (k v : String) : Cache :=
  (k, v) :: cacheDel st k

/-- redis EXPIRE: with TTL 0 the key is removed at once; with a positive
TTL the entry survives (the passage of time is not modelled, only the
trace records the TTL). -/
def cacheExpire (st : Cache) (k : String) (ttl : Nat) : Cache :=
  if ttl = 0 then cacheDel st k else st

/-- One collaborator call made by a handler, in trace order. -/
inductive Event where
  | cacheDel : String → Event
  | cacheGet : String → Option String → Event
  | cacheSet : String → String → Event
  | cacheExpire : String → Nat → Event
  | storeFind : Option Nat → Option Nat → Event
  | storeMostViewed : String → Event
  | storeCreate : Event
  | storeUpdate : String → Event
  | storeRemove : String → Event
deriving DecidableEq, Repr

/-- Whether an event is an operation on the cache (get, set, expire or
delete), as opposed to a store-adapter call. -/
def Event.isCacheOp : Event → Bool
  | .cacheDel _ => true
  | .cacheGet _ _ => true
  | .cacheSet _ _ => true
  | .cacheExpire _ _ => true
  | _ => false

/-- Errors thrown by the handlers and passed to `next`. -/
inductive ApiError where
  | badRequest : String → ApiError
  | notFound : String → ApiError
  | jsonSyntaxError : ApiError
deriving DecidableEq, Repr

/-- A handler result: an HTTP status with a payload, or an error handed to
the error middleware. -/
inductive HResult (α : Type) where
  | ok : Nat → α → HResult α
  | err : ApiError → HResult α
deriving DecidableEq, Repr

/-- Result, final cache state and collaborator-call trace of one handler
run. -/
structure Outcome (α : Type) where
  result : HResult α
  cache : Cache
  events : List Event
deriving DecidableEq, Repr

/-- Modelled from the spec: the `PaginationInfo` produced by the
pagination middleware (absent from `src/`), per §3 of the spec:
`{ totalItems, itemsPerPage, currentPage, totalPages, offset }`. -/
structure PaginationInfo where
  totalItems : Nat
  itemsPerPage : Nat
  currentPage : Nat
  totalPages : Nat
  offset : Nat
deriving DecidableEq, Repr

/-- Modelled from the spec: the Pagination Calculator
(`req.calculatePagination`, middleware absent from `src/`), per §4.1:
`offset = (page - 1) * limit`, `totalPages = ceil(totalItems / limit)`
with `totalPages = 0` when `totalItems = 0`. -/
def computePagination (page limit totalItems : Nat) : PaginationInfo :=
  { totalItems := totalItems
    itemsPerPage := limit
    currentPage := page
    totalPages := if totalItems = 0 then 0 else (totalItems + limit - 1) / limit
    offset := (page - 1) * limit }

/-- The `{ info, results }` response of the paginated path, the value that
is JSON-serialized into the cache. -/
structure PagedResponse (β : Type) where
  info : PaginationInfo
  results : List β
deriving DecidableEq, Repr

/-- A `getBooks` response body: `{ totalBooks, results }` on the unpaged
path, `{ info, results }` on the paginated path. -/
inductive BooksBody (β : Type) where
  | unpaged : Nat → List β → BooksBody β
  | paged : PagedResponse β → BooksBody β
deriving DecidableEq, Repr

/-- The reply of `BookService.findBooks`. -/
structure FindReply (β : Type) where
  results : List β
  totalBooks : Nat
deriving DecidableEq, Repr

/-- The external collaborators of the controller: the store adapter
(`BookService`) and the JSON builtins used on cached payloads.  `β` is the
book record type, opaque to the controller. -/
structure Env (β : Type) where
  findBooks : Option Nat → Option Nat → FindReply β
  findMostViewedBooks : String → List β
  createBook : Body → Option β
  updateBook : String → Body → Option β
  removeBook : String → Option β
  stringifyResp : PagedResponse β → String
  parseResp : String → Option (PagedResponse β)

/-- A listing request: the parsed body plus `req.pagination` as the
pagination middleware leaves it.  Modelled from the spec (§3), `page` and
`limit` are optional positive integers, hence `Option Nat`; JS falsiness
of such a value holds exactly when it is absent or zero. -/
structure ListingRequest where
  body : Body
  page : Option Nat
  limit : Option Nat
  offset : Option Nat
deriving DecidableEq, Repr

/-- JS falsiness of an optional number: `undefined` and `0` are falsy. -/
def optFalsy : Option Nat → Bool
  | none => true
  | some n => n == 0

/-- The `getBooks` handler (controller lines 23-83).  `interfere` models
writes by concurrently running requests to the shared redis between the
`await redis.del` and the `await redis.get`; a sequential execution takes
`interfere = id`. -/
def getBooks {β : Type} (env : Env β) (req : ListingRequest)
    (interfere : Cache → Cache) (st : Cache) : Outcome (BooksBody β) :=
  let key := booksKey req.body
  if optFalsy req.limit || optFalsy req.page then
    let st1 := cacheDel st key
    let r := env.findBooks req.limit req.offset
    { result := .ok 200 (.unpaged r.totalBooks r.results)
      cache := st1
      events := [.cacheDel key, .storeFind req.limit req.offset] }
  else
    let st1 := cacheDel st key
    let st2 := interfere st1
    match cacheGet st2 key with
    | some cachedData =>
      match env.parseResp cachedData with
      | some cachedResponse =>
        { result := .ok 200 (.paged cachedResponse)
          cache := st2
          events := [.cacheDel key, .cacheGet key (some cachedData)] }
      | none =>
        { result := .err .jsonSyntaxError
          cache := st2
          events := [.cacheDel key, .cacheGet key (some cachedData)] }
    | none =>
      let r := env.findBooks req.limit req.offset
      let info := computePagination (req.page.getD 0) (req.limit.getD 0) r.totalBooks
      let response : PagedResponse β := { info := info, results := r.results }
      let ser := env.stringifyResp response
      let st3 := cacheSet st2 key ser
      let st4 := cacheExpire st3 key 300
      { result :=
          if r.results.length < 1 then .err (.notFound "No se encontraron más libros")
          else .ok 200 (.paged response)
        cache := st4
        events := [.cacheDel key, .cacheGet key none,
                   .storeFind req.limit req.offset,
                   .cacheSet key ser, .cacheExpire key 300] }

/-- A request carrying only the `detail` query parameter
(`req.query.detail`, absent or a string). -/
structure DetailRequest where
  detail : Option String
deriving DecidableEq, Repr

/-- The `getMostViewedBooks` handler (controller lines 205-223). -/
def getMostViewedBooks {β : Type} (env : Env β) (req : DetailRequest)
    (st : Cache) : Outcome (List β) :=
  match req.detail with
  | none =>
    { result := .err (.badRequest "Parámetro detail inválido")
      cache := st, events := [] }
  | some detail =>
    if detail == "" || (detail != "summary" && detail != "full") then
      { result := .err (.badRequest "Parámetro detail inválido")
        cache := st, events := [] }
    else
      { result := .ok 200 (env.findMostViewedBooks detail)
        cache := st, events := [.storeMostViewed detail] }

/-- A request carrying only a body (the create payload). -/
structure CreateRequest where
  body : Body
deriving DecidableEq, Repr

/-- The `postBooks` handler (controller lines 225-244): create via the
store, then fire `redis.expire` with TTL 0 on the key derived from the
request body. -/
def postBooks {β : Type} (env : Env β) (req : CreateRequest)
    (st : Cache) : Outcome β :=
  match env.createBook req.body with
  | none =>
    { result := .err (.badRequest "Error al publicar, la solicitud está vacia")
      cache := st, events := [.storeCreate] }
  | some resultBook =>
    let key := booksKey req.body
    { result := .ok 201 resultBook
      cache := cacheExpire st key 0
      events := [.storeCreate, .cacheExpire key 0] }

/-- A request carrying an identifier path parameter and a body. -/
structure UpdateRequest where
  id : String
  body : Body
deriving DecidableEq, Repr

/-- The `putBooks` handler (controller lines 246-265). -/
def putBooks {β : Type} (env : Env β) (req : UpdateRequest)
    (st : Cache) : Outcome β :=
  match env.updateBook req.id req.body with
  | none =>
    { result := .err (.badRequest "No se pudo actualizar")
      cache := st, events := [.storeUpdate req.id] }
  | some result =>
    { result := .ok 201 result
      cache := st, events := [.storeUpdate req.id] }

/-- A request carrying only an identifier path parameter. -/
structure IdRequest where
  id : String
deriving DecidableEq, Repr

/-- The `deleteBook` handler (controller lines 267-285); the success
payload is `{ success: { message: 'Libro eliminado' } }`, modelled by its
message. -/
def deleteBook {β : Type} (env : Env β) (req : IdRequest)
    (st : Cache) : Outcome String :=
  match env.removeBook req.id with
  | none =>
    { result := .err (.notFound "Libro no encontrado")
      cache := st, events := [.storeRemove req.id] }
  | some _ =>
    { result := .ok 200 "Libro eliminado"
      cache := st, events := [.storeRemove req.id] }

/-! ### Cache lemmas -/

theorem cacheGet_cacheDel_self (st : Cache) (k : String) :
    cacheGet (cacheDel st k) k = none := by
  induction st with
  | nil => rfl
  | cons hd tl ih =>
    by_cases h : hd.1 = k
    · simpa [cacheDel, h] using ih
    · simp only [cacheDel, List.filter_cons] at ih ⊢
      simp only [cacheGet] at ih ⊢
      simp [h, List.find?_cons, ih]

theorem cacheGet_cacheSet_self (st : Cache) (k v : String) :
    cacheGet (cacheSet st k v) k = some v := by
  simp [cacheGet, cacheSet, List.find?_cons]

/-! ### Concrete environments used by witnesses -/

/-- A concrete store/JSON environment over `Nat` book records: one book
`7` in the store, and a JSON layer whose serialization of any paged
response is the string "ser", parsed back to the one paged response that
the store produces. -/
def wEnv : Env Nat :=
  { findBooks := fun _ _ => { results := [7], totalBooks := 1 }
    findMostViewedBooks := fun _ => [1, 2]
    createBook := fun b => match b with | .obj [] => none | _ => some 3
    updateBook := fun _ _ => some 4
    removeBook := fun _ => some 5
    stringifyResp := fun _ => "ser"
    parseResp := fun _ => some { info := computePagination 1 10 1, results := [7] } }

/-- A concrete environment whose store holds no books at all. -/
def wEnvEmpty : Env Nat :=
  { findBooks := fun _ _ => { results := [], totalBooks := 0 }
    findMostViewedBooks := fun _ => []
    createBook := fun _ => none
    updateBook := fun _ _ => none
    removeBook := fun _ => none
    stringifyResp := fun _ => "empty"
    parseResp := fun _ => none }

/-! ### Claim theorems -/

/-- C1: for every listing request in which `page` or `limit` is missing or
non-positive (absent or zero, the pagination middleware provides optional
positive integers), `getBooks` takes the unpaged path: it deletes the
cache entry for the request's key, queries the store, returns
`{ totalBooks, results }`, and never writes to the cache (the trace holds
exactly the delete and the store query). -/
theorem getBooks_unpaged_path {β : Type} (env : Env β) (req : ListingRequest)
    (interfere : Cache → Cache) (st : Cache)
    (h : req.page = none ∨ req.page = some 0 ∨ req.limit = none ∨ req.limit = some 0) :
    getBooks env req interfere st =
      { result := .ok 200 (.unpaged (env.findBooks req.limit req.offset).totalBooks
          (env.findBooks req.limit req.offset).results)
        cache := cacheDel st (booksKey req.body)
        events := [.cacheDel (booksKey req.body), .storeFind req.limit req.offset] } := by
  have hg : (optFalsy req.limit || optFalsy req.page) = true := by
    rcases h with h | h | h | h <;> simp [optFalsy, h]
  simp [getBooks, hg]

/-- Witness for C1 at a concrete request with `page` absent. -/
theorem getBooks_unpaged_path_witness :
    getBooks wEnv { body := .obj [], page := none, limit := some 10, offset := none } id [] =
      { result := .ok 200 (.unpaged 1 [7])
        cache := []
        events := [.cacheDel "books_[object Object]", .storeFind (some 10) none] } :=
  getBooks_unpaged_path wEnv
    { body := .obj [], page := none, limit := some 10, offset := none } id [] (Or.inl rfl)

/-- C2 counterexample: two bodies with different content (different
`title` fields) produce the same cache key, because a JS object
interpolates as the constant "[object Object]"; so the key is not a
function of the body's content as the claim states. -/
theorem booksKey_not_injective_counterexample :
    Body.obj [("title", "a")] ≠ Body.obj [("title", "b")] ∧
    booksKey (Body.obj [("title", "a")]) = booksKey (Body.obj [("title", "b")]) :=
  ⟨by decide, rfl⟩

/-- C2 (amended): the cache key used by `getBooks` is "books_" followed by
the JS default stringification of the request body; every object-shaped
body (in particular bodies differing only in pagination parameters, and
any two object bodies whatever their content) yields the constant key
"books_[object Object]", and only primitive bodies vary the key. -/
theorem getBooks_key_from_body_stringification {β : Type} (env : Env β)
    (req : ListingRequest) (interfere : Cache → Cache) (st : Cache) :
    (getBooks env req interfere st).events.head? =
      some (.cacheDel (booksKey req.body)) ∧
    booksKey req.body = "books_" ++ req.body.jsToString ∧
    (∀ fields, booksKey (.obj fields) = "books_[object Object]") ∧
    (∀ s, booksKey (.str s) = "books_" ++ s) := by
  refine ⟨?_, rfl, fun fields => rfl, fun s => rfl⟩
  simp only [getBooks]
  split
  · rfl
  · split
    · split <;> rfl
    · rfl

/-- C3: for every paginated listing request (`page` and `limit` both
present and truthy), `getBooks` deletes the cache entry for the request's
key before reading it, so in a sequential execution (`interfere = id`) the
read always misses and the store is queried: the trace is exactly delete,
miss, store query, set, expire. -/
theorem getBooks_paginated_delete_before_read {β : Type} (env : Env β)
    (req : ListingRequest) (st : Cache) (p l : Nat)
    (hp : req.page = some p) (hp0 : p ≠ 0)
    (hl : req.limit = some l) (hl0 : l ≠ 0) :
    (getBooks env req id st).events =
      [.cacheDel (booksKey req.body),
       .cacheGet (booksKey req.body) none,
       .storeFind req.limit req.offset,
       .cacheSet (booksKey req.body) (env.stringifyResp
         { info := computePagination p l (env.findBooks req.limit req.offset).totalBooks
           results := (env.findBooks req.limit req.offset).results })
       , .cacheExpire (booksKey req.body) 300] := by
  simp [getBooks, hp, hl, optFalsy, hp0, hl0, cacheGet_cacheDel_self]

/-- Witness for C3 at a concrete paginated request. -/
theorem getBooks_paginated_delete_before_read_witness :
    (getBooks wEnv { body := .obj [], page := some 1, limit := some 10, offset := some 0 }
        id [("books_[object Object]", "stale")]).events =
      [.cacheDel "books_[object Object]",
       .cacheGet "books_[object Object]" none,
       .storeFind (some 10) (some 0),
       .cacheSet "books_[object Object]" "ser",
       .cacheExpire "books_[object Object]" 300] :=
  getBooks_paginated_delete_before_read wEnv
    { body := .obj [], page := some 1, limit := some 10, offset := some 0 }
    [("books_[object Object]", "stale")] 1 10 rfl (by decide) rfl (by decide)

/-- C4: for every paginated listing request whose store fetch returns an
empty results list, `getBooks` signals NotFound instead of returning a
successful empty page. -/
theorem getBooks_empty_page_not_found {β : Type} (env : Env β)
    (req : ListingRequest) (st : Cache) (p l : Nat)
    (hp : req.page = some p) (hp0 : p ≠ 0)
    (hl : req.limit = some l) (hl0 : l ≠ 0)
    (hres : (env.findBooks req.limit req.offset).results = []) :
    (getBooks env req id st).result =
      .err (.notFound "No se encontraron más libros") := by
  have hres2 : (env.findBooks (some l) req.offset).results = [] := hl ▸ hres
  simp [getBooks, hp, hl, optFalsy, hp0, hl0, cacheGet_cacheDel_self, hres2]

/-- Witness for C4: a store with `totalItems = 0` at `page = 1`,
`limit = 10` yields NotFound. -/
theorem getBooks_empty_page_not_found_witness :
    (wEnvEmpty.findBooks (some 10) (some 0)).results = [] ∧
    (getBooks wEnvEmpty { body := .obj [], page := some 1, limit := some 10, offset := some 0 }
        id []).result = .err (.notFound "No se encontraron más libros") :=
  ⟨rfl, getBooks_empty_page_not_found wEnvEmpty
    { body := .obj [], page := some 1, limit := some 10, offset := some 0 }
    [] 1 10 rfl (by decide) rfl (by decide) rfl⟩

/-- C5: for every paginated listing request that misses the cache,
`getBooks` builds the response `{ info, results }` and stores its
serialization in the cache under the request's key with a 300-second TTL,
performed as a set followed by a separate expire call (two trace entries,
not one), after which the cache holds the serialized response under the
key. -/
theorem getBooks_miss_populates_set_then_expire {β : Type} (env : Env β)
    (req : ListingRequest) (interfere : Cache → Cache) (st : Cache) (p l : Nat)
    (hp : req.page = some p) (hp0 : p ≠ 0)
    (hl : req.limit = some l) (hl0 : l ≠ 0)
    (hmiss : cacheGet (interfere (cacheDel st (booksKey req.body))) (booksKey req.body) = none) :
    (getBooks env req interfere st).events =
      [.cacheDel (booksKey req.body),
       .cacheGet (booksKey req.body) none,
       .storeFind req.limit req.offset,
       .cacheSet (booksKey req.body) (env.stringifyResp
         { info := computePagination p l (env.findBooks req.limit req.offset).totalBooks
           results := (env.findBooks req.limit req.offset).results })
       , .cacheExpire (booksKey req.body) 300] ∧
    cacheGet (getBooks env req interfere st).cache (booksKey req.body) =
      some (env.stringifyResp
        { info := computePagination p l (env.findBooks req.limit req.offset).totalBooks
          results := (env.findBooks req.limit req.offset).results }) := by
  constructor
  · simp [getBooks, hp, hl, optFalsy, hp0, hl0, hmiss]
  · simp [getBooks, hp, hl, optFalsy, hp0, hl0, hmiss, cacheExpire,
      cacheGet_cacheSet_self]

/-- Witness for C5 at a concrete paginated request in a sequential
execution. -/
theorem getBooks_miss_populates_set_then_expire_witness :
    (getBooks wEnv { body := .obj [], page := some 1, limit := some 10, offset := some 0 }
        id []).events =
      [.cacheDel "books_[object Object]",
       .cacheGet "books_[object Object]" none,
       .storeFind (some 10) (some 0),
       .cacheSet "books_[object Object]" "ser",
       .cacheExpire "books_[object Object]" 300] ∧
    cacheGet (getBooks wEnv
        { body := .obj [], page := some 1, limit := some 10, offset := some 0 }
        id []).cache "books_[object Object]" = some "ser" :=
  getBooks_miss_populates_set_then_expire wEnv
    { body := .obj [], page := some 1, limit := some 10, offset := some 0 }
    id [] 1 10 rfl (by decide) rfl (by decide) rfl

/-- C6: if `detail` is missing or any value other than exactly "summary"
or "full", `getMostViewedBooks` fails with BadRequest; if it is exactly
"summary" or "full", the store is called with that exact value and its
reply is returned. -/
theorem getMostViewedBooks_detail_validation {β : Type} (env : Env β)
    (st : Cache) (detail : Option String) :
    (detail = none →
      (getMostViewedBooks env { detail := detail } st).result =
        .err (.badRequest "Parámetro detail inválido")) ∧
    (∀ d, detail = some d → d ≠ "summary" → d ≠ "full" →
      (getMostViewedBooks env { detail := detail } st).result =
        .err (.badRequest "Parámetro detail inválido")) ∧
    (∀ d, detail = some d → (d = "summary" ∨ d = "full") →
      getMostViewedBooks env { detail := detail } st =
        { result := .ok 200 (env.findMostViewedBooks d)
          cache := st
          events := [.storeMostViewed d] }) := by
  refine ⟨fun hn => ?_, fun d hd h1 h2 => ?_, fun d hd h => ?_⟩
  · simp [getMostViewedBooks, hn]
  · simp [getMostViewedBooks, hd, h1, h2]
  · rcases h with h | h <;> subst h <;> simp [getMostViewedBooks, hd]

/-- Witness for C6: `detail = "other"` is rejected with BadRequest and
`detail = "summary"` delegates to the store with that exact value. -/
theorem getMostViewedBooks_detail_validation_witness :
    (getMostViewedBooks wEnv { detail := some "other" } []).result =
      .err (.badRequest "Parámetro detail inválido") ∧
    getMostViewedBooks wEnv { detail := some "summary" } [] =
      { result := .ok 200 [1, 2]
        cache := []
        events := [.storeMostViewed "summary"] } :=
  ⟨(getMostViewedBooks_detail_validation wEnv [] (some "other")).2.1
      "other" rfl (by decide) (by decide),
   (getMostViewedBooks_detail_validation wEnv [] (some "summary")).2.2
      "summary" rfl (Or.inl rfl)⟩

/-- C7: neither `putBooks` nor `deleteBook` performs any cache operation:
both leave the cache state unchanged and their traces hold only the store
call, whatever the store replies. -/
theorem putBooks_deleteBook_no_cache_ops {β : Type} (env : Env β)
    (requ : UpdateRequest) (reqd : IdRequest) (st st2 : Cache) :
    (putBooks env requ st).cache = st ∧
    (putBooks env requ st).events = [.storeUpdate requ.id] ∧
    (putBooks env requ st).events.filter Event.isCacheOp = [] ∧
    (deleteBook env reqd st2).cache = st2 ∧
    (deleteBook env reqd st2).events = [.storeRemove reqd.id] ∧
    (deleteBook env reqd st2).events.filter Event.isCacheOp = [] := by
  cases hu : env.updateBook requ.id requ.body <;>
    cases hr : env.removeBook reqd.id <;>
      simp [putBooks, deleteBook, hu, hr, Event.isCacheOp]

/-- C8: on a create request, if the store returns a created record the
handler fires expire with TTL 0 on the cache key derived from the create
request's own body and returns the record with status 201; if the store
returns nothing, the request fails with BadRequest and no cache operation
is performed. -/
theorem postBooks_expire_on_success {β : Type} (env : Env β)
    (req : CreateRequest) (st : Cache) :
    (env.createBook req.body = none →
      postBooks env req st =
        { result := .err (.badRequest "Error al publicar, la solicitud está vacia")
          cache := st
          events := [.storeCreate] }) ∧
    (∀ b, env.createBook req.body = some b →
      postBooks env req st =
        { result := .ok 201 b
          cache := cacheExpire st (booksKey req.body) 0
          events := [.storeCreate, .cacheExpire (booksKey req.body) 0] }) := by
  refine ⟨fun hn => ?_, fun b hb => ?_⟩
  · simp [postBooks, hn]
  · simp [postBooks, hb]

/-- Witness for C8: a rejected empty payload yields BadRequest with no
cache event; an accepted payload yields 201 and the expire-with-TTL-0 on
the key derived from the body. -/
theorem postBooks_expire_on_success_witness :
    postBooks wEnv { body := .obj [] } [] =
      { result := .err (.badRequest "Error al publicar, la solicitud está vacia")
        cache := []
        events := [.storeCreate] } ∧
    postBooks wEnv { body := .str "x" } [("books_x", "old")] =
      { result := .ok 201 3
        cache := cacheExpire [("books_x", "old")] "books_x" 0
        events := [.storeCreate, .cacheExpire "books_x" 0] } :=
  ⟨(postBooks_expire_on_success wEnv { body := .obj [] } []).1 rfl,
   (postBooks_expire_on_success wEnv { body := .str "x" } [("books_x", "old")]).2 3 rfl⟩

/-- C9: on the paginated path with an empty results list, the NotFound
error is raised only after the empty response has already been written to
the cache with its 300-second TTL: the failing run's trace ends with the
set and the expire, and the final cache state still holds the serialized
payload that caused the error under the request's key. -/
theorem getBooks_notfound_after_cache_write {β : Type} (env : Env β)
    (req : ListingRequest) (st : Cache) (p l : Nat)
    (hp : req.page = some p) (hp0 : p ≠ 0)
    (hl : req.limit = some l) (hl0 : l ≠ 0)
    (hres : (env.findBooks req.limit req.offset).results = []) :
    (getBooks env req id st).result =
      .err (.notFound "No se encontraron más libros") ∧
    cacheGet (getBooks env req id st).cache (booksKey req.body) =
      some (env.stringifyResp
        { info := computePagination p l (env.findBooks req.limit req.offset).totalBooks
          results := (env.findBooks req.limit req.offset).results }) ∧
    (getBooks env req id st).events =
      [.cacheDel (booksKey req.body),
       .cacheGet (booksKey req.body) none,
       .storeFind req.limit req.offset,
       .cacheSet (booksKey req.body) (env.stringifyResp
         { info := computePagination p l (env.findBooks req.limit req.offset).totalBooks
           results := (env.findBooks req.limit req.offset).results })
       , .cacheExpire (booksKey req.body) 300] := by
  have hres2 : (env.findBooks (some l) req.offset).results = [] := hl ▸ hres
  refine ⟨?_, ?_, ?_⟩
  · simp [getBooks, hp, hl, optFalsy, hp0, hl0, cacheGet_cacheDel_self, hres2]
  · simp [getBooks, hp, hl, optFalsy, hp0, hl0, cacheGet_cacheDel_self, hres2,
      cacheExpire, cacheGet_cacheSet_self]
  · simp [getBooks, hp, hl, optFalsy, hp0, hl0, cacheGet_cacheDel_self, hres2]

/-- Witness for C9: with an empty store the failing request still leaves
the serialized empty page in the cache. -/
theorem getBooks_notfound_after_cache_write_witness :
    (getBooks wEnvEmpty { body := .obj [], page := some 1, limit := some 10, offset := some 0 }
        id []).result = .err (.notFound "No se encontraron más libros") ∧
    cacheGet (getBooks wEnvEmpty
        { body := .obj [], page := some 1, limit := some 10, offset := some 0 }
        id []).cache "books_[object Object]" = some "empty" ∧
    (getBooks wEnvEmpty { body := .obj [], page := some 1, limit := some 10, offset := some 0 }
        id []).events =
      [.cacheDel "books_[object Object]",
       .cacheGet "books_[object Object]" none,
       .storeFind (some 10) (some 0),
       .cacheSet "books_[object Object]" "empty",
       .cacheExpire "books_[object Object]" 300] :=
  getBooks_notfound_after_cache_write wEnvEmpty
    { body := .obj [], page := some 1, limit := some 10, offset := some 0 }
    [] 1 10 rfl (by decide) rfl (by decide) rfl

/-- C10: when the paginated path's cache read does return a hit (possible
only through interference between the delete and the read), the payload
served is the JSON deserialization of the stored string; so for every
response that round-trips through the JSON layer, a hit on its serialized
form returns exactly the originally computed `{ info, results }` response,
with no store query. -/
theorem getBooks_cache_hit_roundtrip {β : Type} (env : Env β)
    (req : ListingRequest) (interfere : Cache → Cache) (st : Cache)
    (p l : Nat) (hp : req.page = some p) (hp0 : p ≠ 0)
    (hl : req.limit = some l) (hl0 : l ≠ 0)
    (r : PagedResponse β)
    (hround : env.parseResp (env.stringifyResp r) = some r)
    (hhit : cacheGet (interfere (cacheDel st (booksKey req.body))) (booksKey req.body) =
      some (env.stringifyResp r)) :
    getBooks env req interfere st =
      { result := .ok 200 (.paged r)
        cache := interfere (cacheDel st (booksKey req.body))
        events := [.cacheDel (booksKey req.body),
                   .cacheGet (booksKey req.body) (some (env.stringifyResp r))] } := by
  simp [getBooks, hp, hl, optFalsy, hp0, hl0, hhit, hround]

/-- Witness for C10: a concurrent refill between the delete and the read
serves the round-tripped stored response without querying the store. -/
theorem getBooks_cache_hit_roundtrip_witness :
    getBooks wEnv { body := .obj [], page := some 1, limit := some 10, offset := some 0 }
        (fun s => cacheSet s "books_[object Object]" "ser") [] =
      { result := .ok 200 (.paged { info := computePagination 1 10 1, results := [7] })
        cache := [("books_[object Object]", "ser")]
        events := [.cacheDel "books_[object Object]",
                   .cacheGet "books_[object Object]" (some "ser")] } :=
  getBooks_cache_hit_roundtrip wEnv
    { body := .obj [], page := some 1, limit := some 10, offset := some 0 }
    (fun s => cacheSet s "books_[object Object]" "ser") [] 1 10
    rfl (by decide) rfl (by decide)
    { info := computePagination 1 10 1, results := [7] } rfl rfl

end XbApi
